import Mathlib

/-!
Shallow embedding of the astronomical-position engine of the Night Sky app
(src/astronomy.js, src/app.js, src/unnamed/part_000).

JavaScript floating-point numbers are modelled as real numbers; the JS
remainder operator (truncating, sign of the dividend) is modelled by
`jsMod`; `Math.atan2 y x` is modelled by `Complex.arg ⟨x, y⟩`, which has
the same range and quadrant behaviour over the reals.
-/

noncomputable section

open Real

/-- Julian date of the J2000.0 epoch (field `this.J2000` in `Astronomy`). -/
def J2000 : ℝ := 2451545.0

/-- `deg2rad` from astronomy.js. -/
def deg2rad (d : ℝ) : ℝ := d * π / 180

/-- `rad2deg` from astronomy.js. -/
def rad2deg (r : ℝ) : ℝ := r * 180 / π

/-- Truncation toward zero, as used by the JS `%` operator. -/
def jsTrunc (t : ℝ) : ℤ := if 0 ≤ t then ⌊t⌋ else ⌈t⌉

/-- The JS remainder `x % y`: truncating division, result carries the sign
of the dividend. -/
def jsMod (x y : ℝ) : ℝ := x - y * (jsTrunc (x / y) : ℝ)

/-- Mathematical remainder into `[0, y)`, used to state spec-level claims
about values "mod 360 normalized into [0,360)". -/
def emod360 (x : ℝ) : ℝ := x - 360 * (⌊x / 360⌋ : ℝ)

/-- `Math.atan2 y x`, modelled by the complex argument of `x + y·i`
(range `(-π, π]`, same quadrant conventions). -/
def atan2 (y x : ℝ) : ℝ := Complex.arg ⟨x, y⟩

theorem jsMod_of_nonneg {x y : ℝ} (hx : 0 ≤ x) (hy : 0 < y) :
    0 ≤ jsMod x y ∧ jsMod x y < y := by
  have ht : jsTrunc (x / y) = ⌊x / y⌋ := if_pos (div_nonneg hx hy.le)
  have h1 : jsMod x y = y * Int.fract (x / y) := by
    rw [jsMod, ht, Int.fract, mul_sub, mul_div_cancel₀ _ hy.ne']
  constructor
  · rw [h1]; exact mul_nonneg hy.le (Int.fract_nonneg _)
  · rw [h1]
    calc y * Int.fract (x / y) < y * 1 := by
          exact (mul_lt_mul_left hy).2 (Int.fract_lt_one _)
    _ = y := mul_one y

theorem jsMod_of_neg {x y : ℝ} (hx : x < 0) (hy : 0 < y) :
    -y < jsMod x y ∧ jsMod x y ≤ 0 := by
  have hd : x / y < 0 := div_neg_of_neg_of_pos hx hy
  have ht : jsTrunc (x / y) = ⌈x / y⌉ := if_neg (by linarith)
  have hle : x / y ≤ (⌈x / y⌉ : ℝ) := Int.le_ceil _
  have hlt : (⌈x / y⌉ : ℝ) < x / y + 1 := Int.ceil_lt_add_one _
  constructor
  · have h2 : y * (⌈x / y⌉ : ℝ) < y * (x / y + 1) := (mul_lt_mul_left hy).2 hlt
    have h3 : y * (x / y + 1) = x + y := by field_simp
    rw [jsMod, ht]; nlinarith
  · have h2 : y * (x / y) ≤ y * (⌈x / y⌉ : ℝ) := (mul_le_mul_left hy).2 hle
    have h3 : y * (x / y) = x := by field_simp
    rw [jsMod, ht]; nlinarith

theorem jsMod_bounds {x y : ℝ} (hy : 0 < y) : -y < jsMod x y ∧ jsMod x y < y := by
  rcases le_or_lt 0 x with hx | hx
  · obtain ⟨h1, h2⟩ := jsMod_of_nonneg hx hy
    exact ⟨by linarith, h2⟩
  · obtain ⟨h1, h2⟩ := jsMod_of_neg hx hy
    exact ⟨h1, by linarith⟩

theorem jsMod_sub_int (x y : ℝ) : ∃ k : ℤ, jsMod x y = x - y * k :=
  ⟨jsTrunc (x / y), rfl⟩

theorem emod360_mem (x : ℝ) : 0 ≤ emod360 x ∧ emod360 x < 360 := by
  have h1 : emod360 x = 360 * Int.fract (x / 360) := by
    rw [emod360, Int.fract, mul_sub, mul_div_cancel₀]; norm_num
  constructor
  · rw [h1]; exact mul_nonneg (by norm_num) (Int.fract_nonneg _)
  · rw [h1]
    calc (360 : ℝ) * Int.fract (x / 360) < 360 * 1 := by
          have := Int.fract_lt_one (x / 360)
          nlinarith [Int.fract_nonneg (x / 360)]
    _ = 360 := mul_one _

/-- The polynomial `theta0` of `getLocalSiderealTime` in astronomy.js. -/
def siderealTheta0 (jd : ℝ) : ℝ :=
  let T := (jd - J2000) / 36525
  280.46061837 + 360.98564736629 * (jd - J2000) +
    0.000387933 * T * T - T * T * T / 38710000

/-- `getLocalSiderealTime` from astronomy.js: `(theta0 + longitude) % 360`,
then a negative result is shifted by `+360`. -/
def getLocalSiderealTime (jd longitude : ℝ) : ℝ :=
  let lst := jsMod (siderealTheta0 jd + longitude) 360
  if lst < 0 then lst + 360 else lst

theorem getLocalSiderealTime_mem (jd longitude : ℝ) :
    0 ≤ getLocalSiderealTime jd longitude ∧ getLocalSiderealTime jd longitude < 360 := by
  obtain ⟨h1, h2⟩ := jsMod_bounds (x := siderealTheta0 jd + longitude) (y := 360) (by norm_num)
  by_cases h : jsMod (siderealTheta0 jd + longitude) 360 < 0 <;>
    simp only [getLocalSiderealTime, h, if_true, if_false] <;> constructor <;> linarith

theorem getLocalSiderealTime_congruent (jd longitude : ℝ) :
    ∃ k : ℤ, getLocalSiderealTime jd longitude =
      siderealTheta0 jd + longitude - 360 * k := by
  obtain ⟨k, hk⟩ := jsMod_sub_int (siderealTheta0 jd + longitude) 360
  by_cases h : jsMod (siderealTheta0 jd + longitude) 360 < 0 <;>
    simp only [getLocalSiderealTime, h, if_true, if_false]
  · exact ⟨k - 1, by push_cast; rw [hk]; ring⟩
  · exact ⟨k, hk⟩

/-- C2: for every Julian Date and longitude, `getLocalSiderealTime` computes
theta0 from the fixed polynomial coefficients, adds the longitude, and
returns a value congruent to `theta0 + longitude` modulo 360 lying in the
half-open interval `[0, 360)`. -/
theorem C2_localSiderealTime_range (jd longitude : ℝ) :
    (0 ≤ getLocalSiderealTime jd longitude ∧ getLocalSiderealTime jd longitude < 360) ∧
      ∃ k : ℤ, getLocalSiderealTime jd longitude =
        siderealTheta0 jd + longitude - 360 * k :=
  ⟨getLocalSiderealTime_mem jd longitude, getLocalSiderealTime_congruent jd longitude⟩

/-- Horizontal (observer-relative) coordinates, as returned by
`equatorialToHorizontal`. -/
structure HorizontalCoordinate where
  altitude : ℝ
  azimuth : ℝ

/-- Equatorial coordinates as returned by `getSunPosition` and
`getMoonPosition`. -/
structure EquatorialCoordinate where
  ra : ℝ
  dec : ℝ

/-- `equatorialToHorizontal` from astronomy.js.  The `Math.max`/`Math.min`
clamp before `Math.acos` is kept verbatim. -/
def equatorialToHorizontal (ra dec lat lon jd : ℝ) : HorizontalCoordinate :=
  let lst := getLocalSiderealTime jd lon
  let ha := lst - ra
  let latRad := deg2rad lat
  let haRad := deg2rad ha
  let decRad := deg2rad dec
  let sinAlt := Real.sin decRad * Real.sin latRad +
    Real.cos decRad * Real.cos latRad * Real.cos haRad
  let altitude := rad2deg (Real.arcsin sinAlt)
  let cosAz := (Real.sin decRad - Real.sin latRad * sinAlt) /
    (Real.cos latRad * Real.cos (Real.arcsin sinAlt))
  let azimuth := rad2deg (Real.arccos (max (-1) (min 1 cosAz)))
  ⟨altitude, if 0 < Real.sin haRad then 360 - azimuth else azimuth⟩

theorem rad2deg_arcsin_mem (x : ℝ) :
    -90 ≤ rad2deg (Real.arcsin x) ∧ rad2deg (Real.arcsin x) ≤ 90 := by
  have h1 := Real.neg_pi_div_two_le_arcsin x
  have h2 := Real.arcsin_le_pi_div_two x
  have hpi := Real.pi_pos
  constructor
  · rw [rad2deg, le_div_iff₀ hpi]
    nlinarith
  · rw [rad2deg, div_le_iff₀ hpi]
    nlinarith

theorem rad2deg_arccos_mem (x : ℝ) :
    0 ≤ rad2deg (Real.arccos x) ∧ rad2deg (Real.arccos x) ≤ 180 := by
  have h1 := Real.arccos_nonneg x
  have h2 := Real.arccos_le_pi x
  have hpi := Real.pi_pos
  constructor
  · exact div_nonneg (by nlinarith) hpi.le
  · rw [rad2deg, div_le_iff₀ hpi]
    nlinarith

theorem equatorialToHorizontal_altitude_mem (ra dec lat lon jd : ℝ) :
    -90 ≤ (equatorialToHorizontal ra dec lat lon jd).altitude ∧
      (equatorialToHorizontal ra dec lat lon jd).altitude ≤ 90 :=
  rad2deg_arcsin_mem _

theorem ite_reflect_mem {c : Prop} [Decidable c] {a : ℝ} (h1 : 0 ≤ a) (h2 : a ≤ 180) :
    0 ≤ (if c then 360 - a else a) ∧ (if c then 360 - a else a) ≤ 360 := by
  split <;> constructor <;> linarith

theorem equatorialToHorizontal_azimuth_mem (ra dec lat lon jd : ℝ) :
    0 ≤ (equatorialToHorizontal ra dec lat lon jd).azimuth ∧
      (equatorialToHorizontal ra dec lat lon jd).azimuth ≤ 360 := by
  simp only [equatorialToHorizontal]
  exact ite_reflect_mem (rad2deg_arccos_mem _).1 (rad2deg_arccos_mem _).2

/-- `getSunPosition` from astronomy.js (simplified solar ephemeris). -/
def getSunPosition (jd : ℝ) : EquatorialCoordinate :=
  let n := jd - J2000
  let L := jsMod (280.460 + 0.9856474 * n) 360
  let g := deg2rad (jsMod (357.528 + 0.9856003 * n) 360)
  let lambda := L + 1.915 * Real.sin g + 0.020 * Real.sin (2 * g)
  let epsilon := 23.439 - 0.0000004 * n
  let ra := rad2deg (atan2
    (Real.cos (deg2rad epsilon) * Real.sin (deg2rad lambda))
    (Real.cos (deg2rad lambda)))
  let dec := rad2deg (Real.arcsin
    (Real.sin (deg2rad epsilon) * Real.sin (deg2rad lambda)))
  ⟨jsMod (ra + 360) 360, dec⟩

/-- `getMoonPosition` from astronomy.js (simplified lunar ephemeris). -/
def getMoonPosition (jd : ℝ) : EquatorialCoordinate :=
  let n := jd - J2000
  let L := jsMod (218.316 + 13.176396 * n) 360
  let M := jsMod (134.963 + 13.064993 * n) 360
  let F := jsMod (93.272 + 13.229350 * n) 360
  let lambda := L + 6.289 * Real.sin (deg2rad M)
  let beta := 5.128 * Real.sin (deg2rad F)
  let epsilon := 23.439 - 0.0000004 * n
  let ra := rad2deg (atan2
    (Real.sin (deg2rad lambda) * Real.cos (deg2rad epsilon) -
      Real.tan (deg2rad beta) * Real.sin (deg2rad epsilon))
    (Real.cos (deg2rad lambda)))
  let dec := rad2deg (Real.arcsin
    (Real.sin (deg2rad beta) * Real.cos (deg2rad epsilon) +
      Real.cos (deg2rad beta) * Real.sin (deg2rad epsilon) *
        Real.sin (deg2rad lambda)))
  ⟨jsMod (ra + 360) 360, dec⟩

/-- `getMoonPhase` from astronomy.js: RA difference of Moon and Sun,
shifted into `[0,360)`, then `(1 - cos)/2`. -/
def getMoonPhase (jd : ℝ) : ℝ :=
  let sun := getSunPosition jd
  let moon := getMoonPosition jd
  let phase := moon.ra - sun.ra
  let phase2 := if phase < 0 then phase + 360 else phase
  (1 - Real.cos (deg2rad phase2)) / 2

theorem ra_normalized_mem (y x : ℝ) :
    0 ≤ jsMod (rad2deg (atan2 y x) + 360) 360 ∧
      jsMod (rad2deg (atan2 y x) + 360) 360 < 360 := by
  have h1 := Complex.neg_pi_lt_arg ⟨x, y⟩
  have hpi := Real.pi_pos
  have hlb : -180 < rad2deg (atan2 y x) := by
    rw [atan2, rad2deg, lt_div_iff₀ hpi]
    nlinarith
  exact jsMod_of_nonneg (by linarith) (by norm_num)

theorem getSunPosition_ra_mem (jd : ℝ) :
    0 ≤ (getSunPosition jd).ra ∧ (getSunPosition jd).ra < 360 := by
  simp only [getSunPosition]
  exact ra_normalized_mem _ _

theorem getMoonPosition_ra_mem (jd : ℝ) :
    0 ≤ (getMoonPosition jd).ra ∧ (getMoonPosition jd).ra < 360 := by
  simp only [getMoonPosition]
  exact ra_normalized_mem _ _

theorem getSunPosition_dec_mem (jd : ℝ) :
    -90 ≤ (getSunPosition jd).dec ∧ (getSunPosition jd).dec ≤ 90 := by
  simp only [getSunPosition]
  exact rad2deg_arcsin_mem _

theorem getMoonPosition_dec_mem (jd : ℝ) :
    -90 ≤ (getMoonPosition jd).dec ∧ (getMoonPosition jd).dec ≤ 90 := by
  simp only [getMoonPosition]
  exact rad2deg_arcsin_mem _

theorem emod360_of_mem {d : ℝ} (h0 : 0 ≤ d) (h1 : d < 360) : emod360 d = d := by
  have hfl : ⌊d / 360⌋ = 0 := by
    rw [Int.floor_eq_iff]
    constructor
    · push_cast
      positivity
    · push_cast
      linarith [(div_lt_one (by norm_num : (0:ℝ) < 360)).2 h1]
  rw [emod360, hfl]
  push_cast
  ring

theorem emod360_of_neg_mem {d : ℝ} (h0 : -360 < d) (h1 : d < 0) : emod360 d = d + 360 := by
  have hfl : ⌊d / 360⌋ = -1 := by
    rw [Int.floor_eq_iff]
    constructor
    · push_cast
      rw [le_div_iff₀ (by norm_num : (0:ℝ) < 360)]
      linarith
    · push_cast
      rw [div_lt_iff₀ (by norm_num : (0:ℝ) < 360)]
      linarith
  rw [emod360, hfl]
  push_cast
  ring

theorem moonSunDiff_norm (jd : ℝ) :
    (if (getMoonPosition jd).ra - (getSunPosition jd).ra < 0
      then (getMoonPosition jd).ra - (getSunPosition jd).ra + 360
      else (getMoonPosition jd).ra - (getSunPosition jd).ra) =
    emod360 ((getMoonPosition jd).ra - (getSunPosition jd).ra) := by
  obtain ⟨hs0, hs1⟩ := getSunPosition_ra_mem jd
  obtain ⟨hm0, hm1⟩ := getMoonPosition_ra_mem jd
  split
  · rw [emod360_of_neg_mem (by linarith) (by assumption)]
  · rw [emod360_of_mem (by linarith) (by linarith)]

theorem getMoonPhase_eq_spec (jd : ℝ) :
    getMoonPhase jd =
      (1 - Real.cos (deg2rad (emod360
        ((getMoonPosition jd).ra - (getSunPosition jd).ra)))) / 2 := by
  simp only [getMoonPhase]
  rw [moonSunDiff_norm]

theorem getMoonPhase_mem (jd : ℝ) : 0 ≤ getMoonPhase jd ∧ getMoonPhase jd ≤ 1 := by
  rw [getMoonPhase_eq_spec]
  have h1 := Real.neg_one_le_cos
    (deg2rad (emod360 ((getMoonPosition jd).ra - (getSunPosition jd).ra)))
  have h2 := Real.cos_le_one
    (deg2rad (emod360 ((getMoonPosition jd).ra - (getSunPosition jd).ra)))
  constructor <;> linarith

/-- C9: for every Julian Date, `getMoonPhase jd` equals
`(1 - cos(diff in radians)) / 2` where `diff` is `MoonRA - SunRA` reduced
modulo 360 into `[0,360)`, and the illumination lies in `[0, 1]`. -/
theorem C9_moon_illumination (jd : ℝ) :
    getMoonPhase jd =
      (1 - Real.cos (deg2rad (emod360
        ((getMoonPosition jd).ra - (getSunPosition jd).ra)))) / 2 ∧
    0 ≤ getMoonPhase jd ∧ getMoonPhase jd ≤ 1 :=
  ⟨getMoonPhase_eq_spec jd, getMoonPhase_mem jd⟩

/-- Mean orbital elements of one planet, one row of the `planets` table in
`getPlanetPosition`. -/
structure PlanetElements where
  L0 : ℝ
  w : ℝ
  i : ℝ
  a : ℝ
  e : ℝ

def mercuryElements : PlanetElements := ⟨252.25, 4.09233, 7.00, 0.387, 0.206⟩

def venusElements : PlanetElements := ⟨181.98, 1.60214, 3.39, 0.723, 0.007⟩

def marsElements : PlanetElements := ⟨355.43, 0.52407, 1.85, 1.524, 0.093⟩

def jupiterElements : PlanetElements := ⟨34.35, 0.08309, 1.31, 5.203, 0.048⟩

def saturnElements : PlanetElements := ⟨50.08, 0.03346, 2.49, 9.537, 0.054⟩

/-- The property keys of `Object.prototype` (the ECMAScript standard
set).  Both lookup tables of astronomy.js are plain object literals, so a
JS property read `table[key]` on them walks the prototype chain: for
these keys it finds an inherited member (a function, or for `__proto__`
the `Object.prototype` object itself), every one of which is truthy. -/
def objectPrototypeKeys : List String :=
  ["constructor", "hasOwnProperty", "isPrototypeOf", "propertyIsEnumerable",
   "toLocaleString", "toString", "valueOf",
   "__defineGetter__", "__defineSetter__", "__lookupGetter__", "__lookupSetter__",
   "__proto__"]

/-- Result of the JS property read `table[key]` on one of the object
literals: an own entry of the literal, a truthy member inherited from
`Object.prototype`, or `undefined`. -/
inductive JsMember (α : Type) where
  | own (v : α)
  | inherited
  | undef

/-- The `planets` lookup table of `getPlanetPosition`: the five own
entries, the inherited `Object.prototype` members, and `undefined` for
every other name. -/
def planetElements (planet : String) : JsMember PlanetElements :=
  if planet = "Mercury" then JsMember.own mercuryElements
  else if planet = "Venus" then JsMember.own venusElements
  else if planet = "Mars" then JsMember.own marsElements
  else if planet = "Jupiter" then JsMember.own jupiterElements
  else if planet = "Saturn" then JsMember.own saturnElements
  else if planet ∈ objectPrototypeKeys then JsMember.inherited
  else JsMember.undef

/-- The `magnitudes` table of `getPlanetMagnitude`, read with the same
prototype-chain lookup. -/
def magnitudeTable (planet : String) : JsMember ℝ :=
  if planet = "Mercury" then JsMember.own 0.0
  else if planet = "Venus" then JsMember.own (-4.0)
  else if planet = "Mars" then JsMember.own 0.5
  else if planet = "Jupiter" then JsMember.own (-2.5)
  else if planet = "Saturn" then JsMember.own 0.5
  else if planet ∈ objectPrototypeKeys then JsMember.inherited
  else JsMember.undef

/-- The value returned by `getPlanetMagnitude`: a number, or — for a name
that hits an inherited `Object.prototype` member — that inherited
function itself, which the truthy `||` passes through unchanged.  A
function is not a real number, so that variant carries no numeric
data. -/
inductive MagnitudeValue where
  | num (m : ℝ)
  | inheritedFunction

/-- `getPlanetMagnitude` from astronomy.js: `magnitudes[planet] || 5`.
The JS `||` operator falls through to the default 5 not only for an
undefined entry but also for the falsy table value `0.0`, so a table
value of zero is replaced by 5; a truthy inherited member is returned
as-is. -/
def getPlanetMagnitude (planet : String) : MagnitudeValue :=
  match magnitudeTable planet with
  | JsMember.own m => if m = 0 then MagnitudeValue.num 5 else MagnitudeValue.num m
  | JsMember.inherited => MagnitudeValue.inheritedFunction
  | JsMember.undef => MagnitudeValue.num 5

/-- The position record returned by `getPlanetPosition` for one of the
five table planets. -/
structure PlanetPosition where
  ra : ℝ
  dec : ℝ
  magnitude : ℝ

/-- The body of `getPlanetPosition` once the element row `p` has been
found: `L = (p.L0 + p.w * n) % 360`, `ra = L`,
`dec = sin(i)·sin(M)·10`, magnitude from `getPlanetMagnitude`. -/
def mkPlanetPosition (p : PlanetElements) (mag jd : ℝ) : PlanetPosition :=
  let n := jd - J2000
  let L := jsMod (p.L0 + p.w * n) 360
  let M := deg2rad L
  ⟨L, Real.sin (deg2rad p.i) * Real.sin M * 10, mag⟩

/-- The non-null results of `getPlanetPosition`.  `position` is the
numeric record of a table planet.  `inheritedObject` is the object built
when the name resolves to an inherited `Object.prototype` member: the
`!planets[planet]` guard sees a truthy value and does not fire, the
element fields read as `undefined`, so `ra` and `dec` are NaN and the
magnitude is the inherited function — at least one field is not a real
number, so the variant carries no numeric data. -/
inductive PlanetLookupResult where
  | position (q : PlanetPosition)
  | inheritedObject

/-- `getPlanetPosition` from astronomy.js: `null` (here `none`) only when
`planets[planet]` is falsy, i.e. `undefined`; an inherited truthy member
passes the guard and produces a non-null degenerate object. -/
def getPlanetPosition (planet : String) (jd : ℝ) : Option PlanetLookupResult :=
  match planetElements planet with
  | JsMember.undef => none
  | JsMember.inherited => some PlanetLookupResult.inheritedObject
  | JsMember.own p =>
    match getPlanetMagnitude planet with
    | MagnitudeValue.num m => some (PlanetLookupResult.position (mkPlanetPosition p m jd))
    | MagnitudeValue.inheritedFunction => some PlanetLookupResult.inheritedObject
      -- this arm cannot fire: the elements table and the magnitude table
      -- have the same five own keys, so an own element row always comes
      -- with a numeric magnitude

/-- The right ascension of a `position` result, for stating properties of
`getPlanetPosition` outputs. -/
def positionRA? : Option PlanetLookupResult → Option ℝ
  | some (PlanetLookupResult.position q) => some q.ra
  | _ => none

/-- The magnitude field of a `position` result. -/
def positionMagnitude? : Option PlanetLookupResult → Option ℝ
  | some (PlanetLookupResult.position q) => some q.magnitude
  | _ => none

theorem mkPlanetPosition_ra_bounds (p : PlanetElements) (mag jd : ℝ) :
    -360 < (mkPlanetPosition p mag jd).ra ∧ (mkPlanetPosition p mag jd).ra < 360 := by
  simp only [mkPlanetPosition]
  exact jsMod_bounds (by norm_num)

theorem mkPlanetPosition_dec_bounds (p : PlanetElements) (mag jd : ℝ) :
    -10 ≤ (mkPlanetPosition p mag jd).dec ∧ (mkPlanetPosition p mag jd).dec ≤ 10 := by
  simp only [mkPlanetPosition]
  have h1 := Real.neg_one_le_sin (deg2rad p.i)
  have h2 := Real.sin_le_one (deg2rad p.i)
  have h3 := Real.neg_one_le_sin (deg2rad (jsMod (p.L0 + p.w * (jd - J2000)) 360))
  have h4 := Real.sin_le_one (deg2rad (jsMod (p.L0 + p.w * (jd - J2000)) 360))
  constructor <;> nlinarith

/-- C6 counterexample: the lookup does not report "no such body" for
every name outside the five-entry table.  The name toString is none of
the five table names, yet `planets[planet]` finds the truthy member
inherited from `Object.prototype`, the `!planets[planet]` guard does not
fire, and `getPlanetPosition` returns a non-null degenerate object
instead of null. -/
theorem C6_prototype_key_counterexample :
    ("toString" ≠ "Mercury" ∧ "toString" ≠ "Venus" ∧ "toString" ≠ "Mars" ∧
      "toString" ≠ "Jupiter" ∧ "toString" ≠ "Saturn") ∧
    getPlanetPosition "toString" 2451545 = some PlanetLookupResult.inheritedObject ∧
    getPlanetPosition "toString" 2451545 ≠ none := by
  refine ⟨⟨by decide, by decide, by decide, by decide, by decide⟩, rfl, ?_⟩
  intro h
  exact Option.noConfusion (rfl.symm.trans h :
    some PlanetLookupResult.inheritedObject = none)

/-- C6 amended: `getPlanetPosition` reports "no such body" (`none`)
exactly for the names that are neither one of the five table entries nor
a key of an inherited `Object.prototype` member; a name such as toString
instead yields a non-null degenerate object. -/
theorem C6_unknown_planet_none (planet : String) (jd : ℝ)
    (h1 : planet ≠ "Mercury") (h2 : planet ≠ "Venus") (h3 : planet ≠ "Mars")
    (h4 : planet ≠ "Jupiter") (h5 : planet ≠ "Saturn")
    (h6 : planet ∉ objectPrototypeKeys) :
    getPlanetPosition planet jd = none := by
  have hpe : planetElements planet = JsMember.undef := by
    rw [planetElements, if_neg h1, if_neg h2, if_neg h3, if_neg h4, if_neg h5, if_neg h6]
  rw [getPlanetPosition, hpe]

/-- Witness for C6 at the concrete unknown name Pluto. -/
theorem C6_unknown_planet_none_witness : getPlanetPosition "Pluto" 2451545 = none :=
  C6_unknown_planet_none "Pluto" 2451545 (by decide) (by decide) (by decide)
    (by decide) (by decide) (by decide)

/-- C1: evaluation of the planet magnitude table.  Venus, Mars, Jupiter
and Saturn return their table constants, but Mercury returns the
unknown-name default 5 instead of its table constant 0.0, because the JS
expression `magnitudes[planet] || 5` treats the value 0.0 as falsy; the
magnitude field of `getPlanetPosition` inherits the same value. -/
theorem C1_planet_magnitude_eval :
    getPlanetMagnitude "Mercury" = MagnitudeValue.num 5 ∧
    getPlanetMagnitude "Venus" = MagnitudeValue.num (-4.0) ∧
    getPlanetMagnitude "Mars" = MagnitudeValue.num 0.5 ∧
    getPlanetMagnitude "Jupiter" = MagnitudeValue.num (-2.5) ∧
    getPlanetMagnitude "Saturn" = MagnitudeValue.num 0.5 ∧
    positionMagnitude? (getPlanetPosition "Mercury" 2451545) = some 5 ∧
    positionMagnitude? (getPlanetPosition "Venus" 2451545) = some (-4.0) := by
  refine ⟨?_, ?_, ?_, ?_, ?_, ?_, ?_⟩ <;>
    · simp only [getPlanetMagnitude, magnitudeTable, getPlanetPosition, planetElements,
        positionMagnitude?, mkPlanetPosition, String.reduceEq, if_true, if_false,
        ite_true, ite_false]
      norm_num

theorem jsMod_eval_of_mem {x : ℝ} (h0 : 0 ≤ x) (h1 : x < 360) : jsMod x 360 = x := by
  have hfl : ⌊x / 360⌋ = 0 := by
    rw [Int.floor_eq_iff]
    constructor
    · push_cast
      positivity
    · push_cast
      linarith [(div_lt_one (by norm_num : (0:ℝ) < 360)).2 h1]
  rw [jsMod, jsTrunc, if_pos (div_nonneg h0 (by norm_num)), hfl]
  push_cast
  ring

theorem jsMod_eval_of_neg_mem {x : ℝ} (h0 : -360 < x) (h1 : x < 0) : jsMod x 360 = x := by
  have hcl : ⌈x / 360⌉ = 0 := by
    rw [Int.ceil_eq_zero_iff, Set.mem_Ioc]
    constructor
    · rw [lt_div_iff₀ (by norm_num : (0:ℝ) < 360)]
      linarith
    · exact le_of_lt (div_neg_of_neg_of_pos h1 (by norm_num))
  rw [jsMod, jsTrunc, if_neg (by
    intro hge
    have := div_neg_of_neg_of_pos h1 (by norm_num : (0:ℝ) < 360)
    linarith), hcl]
  push_cast
  ring

theorem mercury_ra_negative :
    positionRA? (getPlanetPosition "Mercury" 2451445) = some (-156.983) := by
  have harg : (252.25 + 4.09233 * (2451445 - J2000) : ℝ) = -156.983 := by
    rw [J2000]
    norm_num
  simp [getPlanetPosition, planetElements, getPlanetMagnitude, magnitudeTable,
    positionRA?, String.reduceEq, mercuryElements, mkPlanetPosition]
  rw [harg, jsMod_eval_of_neg_mem (by norm_num) (by norm_num)]
  norm_num

theorem theta0_at_J2000 : siderealTheta0 2451545 = 280.46061837 := by
  simp only [siderealTheta0, J2000]
  norm_num

theorem lst_90 : getLocalSiderealTime 2451545 (-190.46061837) = 90 := by
  have h : siderealTheta0 2451545 + -190.46061837 = 90 := by
    rw [theta0_at_J2000]
    norm_num
  simp only [getLocalSiderealTime, h]
  rw [jsMod_eval_of_mem (by norm_num) (by norm_num)]
  norm_num

theorem lst_0 : getLocalSiderealTime 2451545 (-280.46061837) = 0 := by
  have h : siderealTheta0 2451545 + -280.46061837 = 0 := by
    rw [theta0_at_J2000]
    norm_num
  simp only [getLocalSiderealTime, h]
  rw [jsMod_eval_of_mem le_rfl (by norm_num)]
  norm_num

theorem deg2rad_90 : deg2rad 90 = π / 2 := by rw [deg2rad]; ring

theorem deg2rad_45 : deg2rad 45 = π / 4 := by rw [deg2rad]; ring

theorem deg2rad_180 : deg2rad 180 = π := by rw [deg2rad]; ring

theorem deg2rad_0 : deg2rad 0 = 0 := by rw [deg2rad]; ring

theorem deg2rad_neg90 : deg2rad (-90) = -(π / 2) := by rw [deg2rad]; ring

theorem rad2deg_0 : rad2deg 0 = 0 := by rw [rad2deg]; ring

theorem rad2deg_pi : rad2deg π = 180 := by
  rw [rad2deg, div_eq_iff Real.pi_ne_zero]
  ring

theorem rad2deg_pi_div_two : rad2deg (π / 2) = 90 := by
  rw [rad2deg, div_eq_iff Real.pi_ne_zero]
  ring

theorem rad2deg_neg_pi_div_two : rad2deg (-(π / 2)) = -90 := by
  rw [rad2deg, div_eq_iff Real.pi_ne_zero]
  ring

theorem arcsin_sqrt_two_div_two : Real.arcsin (Real.sqrt 2 / 2) = π / 4 := by
  rw [← Real.sin_pi_div_four]
  exact Real.arcsin_sin (by linarith [Real.pi_pos]) (by linarith [Real.pi_pos])

/-- At observer latitude 45, a body at the pole (dec 90) with hour angle
90 gets azimuth exactly 360 (clamped cosAz is 1 while sin of the hour
angle is positive). -/
theorem azimuth_attains_360 :
    (equatorialToHorizontal 0 90 45 (-190.46061837) 2451545).azimuth = 360 := by
  have h1 : getLocalSiderealTime 2451545 (-190.46061837) - 0 = 90 := by
    rw [lst_90]; ring
  simp only [equatorialToHorizontal, h1, deg2rad_90, deg2rad_45, Real.sin_pi_div_two,
    Real.cos_pi_div_two, Real.sin_pi_div_four, Real.cos_pi_div_four]
  have hsa : (1 : ℝ) * (Real.sqrt 2 / 2) + 0 * (Real.sqrt 2 / 2) * 0 = Real.sqrt 2 / 2 := by
    ring
  rw [hsa, arcsin_sqrt_two_div_two, Real.cos_pi_div_four]
  have hhalf : (Real.sqrt 2 / 2 : ℝ) * (Real.sqrt 2 / 2) = 1 / 2 := by
    rw [div_mul_div_comm, Real.mul_self_sqrt (by norm_num)]
    norm_num
  rw [hhalf]
  have hca : ((1 : ℝ) - 1 / 2) / (1 / 2) = 1 := by norm_num
  rw [hca]
  have hmin : min (1 : ℝ) 1 = 1 := min_self 1
  have hmax : max (-1 : ℝ) 1 = 1 := by norm_num
  rw [hmin, hmax, Real.arccos_one, rad2deg_0, if_pos (by norm_num : (0:ℝ) < 1)]
  norm_num

/-- With latitude 180 (outside [-90,90]) the transform still computes a
definite result: for a body at dec 90 with hour angle 0 it returns
altitude 0 and azimuth 180. -/
theorem e2h_at_latitude_180 :
    equatorialToHorizontal 0 90 180 (-280.46061837) 2451545 = ⟨0, 180⟩ := by
  have h1 : getLocalSiderealTime 2451545 (-280.46061837) - 0 = 0 := by
    rw [lst_0]; ring
  simp only [equatorialToHorizontal, h1, deg2rad_90, deg2rad_180, deg2rad_0,
    Real.sin_pi_div_two, Real.cos_pi_div_two, Real.sin_pi, Real.cos_pi,
    Real.sin_zero, Real.cos_zero]
  have hsa : (1 : ℝ) * 0 + 0 * -1 * 1 = 0 := by ring
  rw [hsa, Real.arcsin_zero, Real.cos_zero, rad2deg_0]
  have hca : ((1 : ℝ) - 0 * 0) / (-1 * 1) = -1 := by norm_num
  rw [hca]
  have hmin : min (1 : ℝ) (-1) = -1 := by norm_num
  have hmax : max (-1 : ℝ) (-1) = -1 := max_self (-1)
  rw [hmin, hmax, Real.arccos_neg_one, rad2deg_pi, if_neg (by norm_num : ¬ (0:ℝ) < 0)]

/-- Same query with the latitude at the in-range endpoint 90: the result
differs, so the out-of-range latitude of `e2h_at_latitude_180` was not
clamped to the valid range. -/
theorem e2h_altitude_at_latitude_90 :
    (equatorialToHorizontal 0 90 90 (-280.46061837) 2451545).altitude = 90 := by
  have h1 : getLocalSiderealTime 2451545 (-280.46061837) - 0 = 0 := by
    rw [lst_0]; ring
  simp only [equatorialToHorizontal, h1, deg2rad_90, deg2rad_0,
    Real.sin_pi_div_two, Real.cos_pi_div_two, Real.sin_zero, Real.cos_zero]
  have hsa : (1 : ℝ) * 1 + 0 * 0 * 1 = 1 := by ring
  rw [hsa, Real.arcsin_one, rad2deg_pi_div_two]

theorem e2h_altitude_at_latitude_neg90 :
    (equatorialToHorizontal 0 90 (-90) (-280.46061837) 2451545).altitude = -90 := by
  have h1 : getLocalSiderealTime 2451545 (-280.46061837) - 0 = 0 := by
    rw [lst_0]; ring
  simp only [equatorialToHorizontal, h1, deg2rad_90, deg2rad_neg90, deg2rad_0,
    Real.sin_pi_div_two, Real.cos_pi_div_two, Real.sin_neg, Real.cos_neg,
    Real.sin_zero, Real.cos_zero]
  have hsa : (1 : ℝ) * -1 + 0 * 0 * 1 = -1 := by ring
  rw [hsa, Real.arcsin_neg_one, rad2deg_neg_pi_div_two]

/-- C8 counterexample: the documented coordinate ranges fail on the code.
At `jd = 2451445` (100 days before J2000) Mercury's right ascension is the
negative number -156.983, outside [0,360); and `equatorialToHorizontal`
can return azimuth exactly 360, outside [0,360). -/
theorem C8_range_counterexample :
    positionRA? (getPlanetPosition "Mercury" 2451445) = some (-156.983) ∧
    ((-156.983 : ℝ) < 0) ∧
    (equatorialToHorizontal 0 90 45 (-190.46061837) 2451545).azimuth = 360 :=
  ⟨mercury_ra_negative, by norm_num, azimuth_attains_360⟩

/-- C8 amended: Sun and Moon positions have RA in [0,360) and Dec in
[-90,90] as documented, and `equatorialToHorizontal` keeps altitude in
[-90,90]; but every planet position produced by `getPlanetPosition` only
has RA in the open interval (-360,360) (the JS remainder is not
renormalized for negative mean longitudes) and Dec in [-10,10], and the
azimuth lies in the closed interval [0,360], attaining 360. -/
theorem C8_coordinate_ranges :
    (∀ jd : ℝ, (0 ≤ (getSunPosition jd).ra ∧ (getSunPosition jd).ra < 360) ∧
      (-90 ≤ (getSunPosition jd).dec ∧ (getSunPosition jd).dec ≤ 90)) ∧
    (∀ jd : ℝ, (0 ≤ (getMoonPosition jd).ra ∧ (getMoonPosition jd).ra < 360) ∧
      (-90 ≤ (getMoonPosition jd).dec ∧ (getMoonPosition jd).dec ≤ 90)) ∧
    (∀ (p : PlanetElements) (mag jd : ℝ),
      (-360 < (mkPlanetPosition p mag jd).ra ∧ (mkPlanetPosition p mag jd).ra < 360) ∧
      (-10 ≤ (mkPlanetPosition p mag jd).dec ∧ (mkPlanetPosition p mag jd).dec ≤ 10)) ∧
    (∀ (planet : String) (jd : ℝ),
      match getPlanetPosition planet jd with
      | some (PlanetLookupResult.position q) =>
          (-360 < q.ra ∧ q.ra < 360) ∧ (-10 ≤ q.dec ∧ q.dec ≤ 10)
      | _ => True) ∧
    (∀ ra dec lat lon jd : ℝ,
      (-90 ≤ (equatorialToHorizontal ra dec lat lon jd).altitude ∧
        (equatorialToHorizontal ra dec lat lon jd).altitude ≤ 90) ∧
      (0 ≤ (equatorialToHorizontal ra dec lat lon jd).azimuth ∧
        (equatorialToHorizontal ra dec lat lon jd).azimuth ≤ 360)) := by
  refine ⟨fun jd => ⟨getSunPosition_ra_mem jd, getSunPosition_dec_mem jd⟩,
    fun jd => ⟨getMoonPosition_ra_mem jd, getMoonPosition_dec_mem jd⟩,
    fun p mag jd => ⟨mkPlanetPosition_ra_bounds p mag jd, mkPlanetPosition_dec_bounds p mag jd⟩,
    fun planet jd => ?_,
    fun ra dec lat lon jd => ⟨equatorialToHorizontal_altitude_mem ra dec lat lon jd,
      equatorialToHorizontal_azimuth_mem ra dec lat lon jd⟩⟩
  cases hpe : planetElements planet with
  | undef => simp [getPlanetPosition, hpe]
  | inherited => simp [getPlanetPosition, hpe]
  | own p =>
    cases hm : getPlanetMagnitude planet with
    | inheritedFunction => simp [getPlanetPosition, hpe, hm]
    | num m =>
      simp only [getPlanetPosition, hpe, hm]
      exact ⟨mkPlanetPosition_ra_bounds p m jd, mkPlanetPosition_dec_bounds p m jd⟩

/-- C5 counterexample: an out-of-range latitude is not rejected.
The engine computes a definite horizontal coordinate, altitude 0 and
azimuth 180, for latitude 180. -/
theorem C5_no_rejection_counterexample :
    equatorialToHorizontal 0 90 180 (-280.46061837) 2451545 = ⟨0, 180⟩ :=
  e2h_at_latitude_180

/-- C5 amended: the engine performs no latitude validation at all: it
neither raises an error nor clamps.  With latitude 180 it computes
altitude 0, a result distinct from the results at the clamping candidates
90 and -90, so the out-of-range value is used as-is. -/
theorem C5_latitude_not_validated :
    (equatorialToHorizontal 0 90 180 (-280.46061837) 2451545).altitude = 0 ∧
    (equatorialToHorizontal 0 90 90 (-280.46061837) 2451545).altitude = 90 ∧
    (equatorialToHorizontal 0 90 (-90) (-280.46061837) 2451545).altitude = -90 := by
  refine ⟨?_, e2h_altitude_at_latitude_90, e2h_altitude_at_latitude_neg90⟩
  rw [e2h_at_latitude_180]

/-- One row of the bright star catalog: name, RA in hours, Dec in
degrees, magnitude, spectral class. -/
structure CatalogEntry where
  name : String
  raHours : ℝ
  dec : ℝ
  magnitude : ℝ
  spectralClass : String

/-- `STAR_CATALOG` from astronomy.js (50 bright stars). -/
def STAR_CATALOG : List CatalogEntry := [
  ⟨"Sirius", 6.752, -16.716, -1.46, "A1V"⟩,
  ⟨"Canopus", 6.399, -52.696, -0.72, "F0Ib"⟩,
  ⟨"Arcturus", 14.261, 19.182, -0.04, "K1.5III"⟩,
  ⟨"Rigel Kentaurus", 14.661, -60.833, -0.01, "G2V"⟩,
  ⟨"Vega", 18.615, 38.783, 0.03, "A0V"⟩,
  ⟨"Capella", 5.278, 45.998, 0.08, "G8III"⟩,
  ⟨"Rigel", 5.242, -8.202, 0.12, "B8Ia"⟩,
  ⟨"Procyon", 7.655, 5.225, 0.38, "F5IV"⟩,
  ⟨"Achernar", 1.629, -57.237, 0.46, "B3V"⟩,
  ⟨"Betelgeuse", 5.919, 7.407, 0.50, "M2Iab"⟩,
  ⟨"Hadar", 14.063, -60.373, 0.61, "B1III"⟩,
  ⟨"Altair", 19.846, 8.868, 0.77, "A7V"⟩,
  ⟨"Aldebaran", 4.599, 16.509, 0.85, "K5III"⟩,
  ⟨"Spica", 13.420, -11.161, 1.04, "B1V"⟩,
  ⟨"Antares", 16.490, -26.432, 1.09, "M1.5Iab"⟩,
  ⟨"Pollux", 7.755, 28.026, 1.14, "K0III"⟩,
  ⟨"Fomalhaut", 22.961, -29.622, 1.16, "A3V"⟩,
  ⟨"Deneb", 20.690, 45.280, 1.25, "A2Ia"⟩,
  ⟨"Mimosa", 12.795, -59.689, 1.30, "B0.5III"⟩,
  ⟨"Regulus", 10.139, 11.967, 1.35, "B7V"⟩,
  ⟨"Adhara", 6.977, -28.972, 1.50, "B2II"⟩,
  ⟨"Castor", 7.577, 31.888, 1.57, "A1V"⟩,
  ⟨"Shaula", 17.560, -37.104, 1.62, "B2IV"⟩,
  ⟨"Bellatrix", 5.419, 6.350, 1.64, "B2III"⟩,
  ⟨"Elnath", 5.438, 28.608, 1.65, "B7III"⟩,
  ⟨"Miaplacidus", 9.220, -69.717, 1.68, "A2IV"⟩,
  ⟨"Alnilam", 5.603, -1.202, 1.69, "B0Ia"⟩,
  ⟨"Alnitak", 5.679, -1.943, 1.70, "O9Ib"⟩,
  ⟨"Alnair", 22.137, -46.961, 1.74, "B7IV"⟩,
  ⟨"Alioth", 12.900, 55.960, 1.77, "A0pCr"⟩,
  ⟨"Dubhe", 11.062, 61.751, 1.79, "K1III"⟩,
  ⟨"Mirfak", 3.405, 49.861, 1.79, "F5Ib"⟩,
  ⟨"Wezen", 7.140, -26.393, 1.84, "F8Ia"⟩,
  ⟨"Alkaid", 13.792, 49.313, 1.86, "B3V"⟩,
  ⟨"Sargas", 17.621, -42.998, 1.87, "F1II"⟩,
  ⟨"Avior", 8.375, -59.509, 1.86, "K3III"⟩,
  ⟨"Menkalinan", 6.008, 44.947, 1.90, "A2V"⟩,
  ⟨"Atria", 16.811, -69.028, 1.92, "K2IIb"⟩,
  ⟨"Alhena", 6.628, 16.399, 1.93, "A0IV"⟩,
  ⟨"Peacock", 20.427, -56.735, 1.94, "B2IV"⟩,
  ⟨"Polaris", 2.530, 89.264, 1.98, "F7Ib"⟩,
  ⟨"Mirzam", 6.378, -17.956, 1.98, "B1II"⟩,
  ⟨"Alphard", 9.460, -8.659, 1.98, "K3II"⟩,
  ⟨"Hamal", 2.120, 23.462, 2.00, "K2III"⟩,
  ⟨"Kaus Australis", 18.403, -34.385, 2.02, "B9.5III"⟩,
  ⟨"Algieba", 10.332, 19.842, 2.08, "K1III"⟩,
  ⟨"Diphda", 0.726, -17.987, 2.04, "K0III"⟩,
  ⟨"Nunki", 18.921, -26.297, 2.05, "B2.5V"⟩,
  ⟨"Mizar", 13.397, 54.925, 2.04, "A2V"⟩,
  ⟨"Scheat", 23.063, 28.083, 2.42, "M2.5II"⟩]

/-- `CONSTELLATIONS` from astronomy.js: named lists of line paths, each
path a list of star-catalog indices. -/
def CONSTELLATIONS : List (String × List (List Nat)) := [
  ("Ursa Major", [[0, 30], [30, 33], [33, 29], [29, 0], [30, 48]]),
  ("Orion", [[6, 9, 24], [24, 26, 27], [9, 26]]),
  ("Cassiopeia", [[40, 41, 46, 50, 51]]),
  ("Leo", [[19, 44]]),
  ("Scorpius", [[14, 43, 23]])]

/-- `raHoursToDegrees` from astronomy.js. -/
def raHoursToDegrees (hours : ℝ) : ℝ := hours * 15

/-- A processed star record as produced by `getStars` (the source calls
these objects stars); the `altitude` and `azimuth` fields model the
properties that `calculateVisibleObjects` in app.js later assigns onto
the record (absent, i.e. `none`, until then). -/
structure StarRecord where
  id : Nat
  name : String
  ra : ℝ
  dec : ℝ
  magnitude : ℝ
  spectralClass : String
  altitude : Option ℝ
  azimuth : Option ℝ

/-- `getStars` from astronomy.js: index-stable mapping of the catalog. -/
def getStars : List StarRecord :=
  (STAR_CATALOG.enum).map fun e =>
    ⟨e.1, e.2.name, raHoursToDegrees e.2.raHours, e.2.dec, e.2.magnitude,
      e.2.spectralClass, none, none⟩

theorem star_catalog_length : STAR_CATALOG.length = 50 := by
  rw [STAR_CATALOG]
  rfl

/-- C10 counterexample: not every constellation-line index is a valid
catalog index.  The Cassiopeia path contains the index 51, but the
catalog has only 50 entries. -/
theorem C10_invalid_index_counterexample :
    (¬ ∀ c ∈ CONSTELLATIONS, ∀ line ∈ c.2, ∀ i ∈ line, i < STAR_CATALOG.length) ∧
    ("Cassiopeia", [[40, 41, 46, 50, 51]]) ∈ CONSTELLATIONS ∧
    STAR_CATALOG.length = 50 := by
  refine ⟨fun h => ?_, by decide, star_catalog_length⟩
  have h51 := h ("Cassiopeia", [[40, 41, 46, 50, 51]]) (by decide)
    [40, 41, 46, 50, 51] (by decide) 51 (by decide)
  rw [star_catalog_length] at h51
  omega

/-- C10 amended: every star index in the constellation lines is below 52,
and every one of them is a valid index into the 50-entry catalog except
the two indices 50 and 51 at the end of the single Cassiopeia path, which
resolve to no star record. -/
theorem C10_indices_amended :
    CONSTELLATIONS.Forall fun c => c.2.Forall fun line => line.Forall fun i =>
      i < 52 ∧ (i < STAR_CATALOG.length ∨ c.1 = "Cassiopeia" ∧ (i = 50 ∨ i = 51)) := by
  simp only [star_catalog_length]
  decide


/-- Kind tag of an entry of `visibleObjects` / `allObjects`. -/
inductive SkyType where
  | star
  | planet
  | moon
deriving DecidableEq

/-- One entry of the query result (`visibleObjects` in app.js,
`allObjects` in the sky-map variant).  Optional fields model properties
present only on some entry kinds. -/
structure SkyObject where
  type : SkyType
  name : String
  magnitude : ℝ
  altitude : ℝ
  azimuth : ℝ
  spectralClass : Option String
  phase : Option ℝ
  catalogIndex : Option Nat

/-- Comparator order of the final `sort((a, b) => a.magnitude - b.magnitude)`. -/
def magLE (u v : SkyObject) : Prop := u.magnitude ≤ v.magnitude

/-- Insert an object into an already sorted list, after every element of
magnitude less than or equal to its own (the placement a stable ascending
sort gives to a newly considered element). -/
def insertByMagnitude (a : SkyObject) : List SkyObject → List SkyObject
  | [] => [a]
  | b :: l => if a.magnitude < b.magnitude then a :: b :: l else b :: insertByMagnitude a l

/-- Model of `Array.prototype.sort` with comparator
`(a, b) => a.magnitude - b.magnitude`: the ECMAScript sort is required to
be stable, so the result is the unique stable ascending reordering,
obtained here by inserting the elements left to right. -/
def sortByMagnitude (l : List SkyObject) : List SkyObject :=
  l.foldl (fun acc a => insertByMagnitude a acc) []

theorem mem_insertByMagnitude {a x : SkyObject} :
    ∀ {l : List SkyObject}, x ∈ insertByMagnitude a l ↔ x = a ∨ x ∈ l
  | [] => by simp [insertByMagnitude]
  | b :: l => by
    simp only [insertByMagnitude]
    split
    · simp [or_comm, or_assoc, or_left_comm]
    · simp [mem_insertByMagnitude (l := l)]
      tauto

theorem pairwise_insertByMagnitude {a : SkyObject} :
    ∀ {l : List SkyObject}, l.Pairwise magLE → (insertByMagnitude a l).Pairwise magLE
  | [], _ => by simp [insertByMagnitude, List.Pairwise]
  | b :: l, h => by
    simp only [insertByMagnitude]
    obtain ⟨hb, hl⟩ := List.pairwise_cons.1 h
    split
    · refine List.pairwise_cons.2 ⟨?_, h⟩
      intro x hx
      rcases List.mem_cons.1 hx with hx | hx
      · subst hx
        exact le_of_lt (by assumption)
      · exact le_trans (le_of_lt (by assumption)) (hb x hx)
    · refine List.pairwise_cons.2 ⟨?_, pairwise_insertByMagnitude hl⟩
      intro x hx
      rcases mem_insertByMagnitude.1 hx with hx | hx
      · subst hx
        exact le_of_not_lt (by assumption)
      · exact hb x hx

theorem insertByMagnitude_perm (a : SkyObject) :
    ∀ (l : List SkyObject), List.Perm (insertByMagnitude a l) (a :: l)
  | [] => List.Perm.refl _
  | b :: l => by
    simp only [insertByMagnitude]
    split
    · exact List.Perm.refl _
    · exact ((insertByMagnitude_perm a l).cons b).trans (List.Perm.swap a b l)

theorem foldl_insert_pairwise :
    ∀ (l acc : List SkyObject), acc.Pairwise magLE →
      (l.foldl (fun acc a => insertByMagnitude a acc) acc).Pairwise magLE
  | [], _, h => h
  | a :: l, acc, h =>
    foldl_insert_pairwise l (insertByMagnitude a acc) (pairwise_insertByMagnitude h)

theorem foldl_insert_perm :
    ∀ (l acc : List SkyObject),
      List.Perm (l.foldl (fun acc a => insertByMagnitude a acc) acc) (acc ++ l)
  | [], acc => by simp
  | a :: l, acc => by
    have h1 := foldl_insert_perm l (insertByMagnitude a acc)
    have h2 : List.Perm (insertByMagnitude a acc ++ l) ((a :: acc) ++ l) :=
      (insertByMagnitude_perm a acc).append_right l
    exact (h1.trans (h2.trans List.perm_middle.symm))

theorem sortByMagnitude_pairwise (l : List SkyObject) :
    (sortByMagnitude l).Pairwise magLE :=
  foldl_insert_pairwise l [] List.Pairwise.nil

theorem sortByMagnitude_perm (l : List SkyObject) : List.Perm (sortByMagnitude l) l := by
  simpa using foldl_insert_perm l []

theorem sortByMagnitude_forall {p : SkyObject → Prop} {l : List SkyObject}
    (h : l.Forall p) : (sortByMagnitude l).Forall p := by
  rw [List.forall_iff_forall_mem] at *
  intro x hx
  exact h x ((sortByMagnitude_perm l).mem_iff.1 hx)

/-- The subsequence of entries with one fixed magnitude, used to state
stability of the sort: a sort is stable for the magnitude key exactly
when this subsequence is unchanged for every key. -/
def filterByMagnitude (m : ℝ) : List SkyObject → List SkyObject
  | [] => []
  | a :: l => if a.magnitude = m then a :: filterByMagnitude m l else filterByMagnitude m l

theorem filterByMagnitude_insert_of_ne {a : SkyObject} {m : ℝ} (h : a.magnitude ≠ m) :
    ∀ {l : List SkyObject},
      filterByMagnitude m (insertByMagnitude a l) = filterByMagnitude m l
  | [] => by simp [insertByMagnitude, filterByMagnitude, h]
  | b :: l => by
    simp only [insertByMagnitude]
    split
    · simp [filterByMagnitude, h]
    · simp only [filterByMagnitude]
      rw [filterByMagnitude_insert_of_ne h (l := l)]

theorem filterByMagnitude_eq_nil {m : ℝ} :
    ∀ {l : List SkyObject}, (∀ x ∈ l, m < x.magnitude) → filterByMagnitude m l = []
  | [], _ => rfl
  | b :: l, h => by
    have hb : b.magnitude ≠ m := by
      have := h b (by simp)
      exact fun he => absurd (he ▸ this) (lt_irrefl m)
    simp only [filterByMagnitude, if_neg hb]
    exact filterByMagnitude_eq_nil fun x hx => h x (by simp [hx])

theorem filterByMagnitude_insert_of_eq {a : SkyObject} {m : ℝ} (ha : a.magnitude = m) :
    ∀ {l : List SkyObject}, l.Pairwise magLE →
      filterByMagnitude m (insertByMagnitude a l) = filterByMagnitude m l ++ [a]
  | [], _ => by simp [insertByMagnitude, filterByMagnitude, ha]
  | b :: l, h => by
    obtain ⟨hb, hl⟩ := List.pairwise_cons.1 h
    simp only [insertByMagnitude]
    split
    · have hbm : m < b.magnitude := ha ▸ (by assumption)
      have hnil : filterByMagnitude m (b :: l) = [] := by
        refine filterByMagnitude_eq_nil fun x hx => ?_
        rcases List.mem_cons.1 hx with hx | hx
        · exact hx ▸ hbm
        · exact lt_of_lt_of_le hbm (hb x hx)
      show filterByMagnitude m (a :: b :: l) = filterByMagnitude m (b :: l) ++ [a]
      rw [hnil]
      show (if a.magnitude = m then a :: filterByMagnitude m (b :: l)
        else filterByMagnitude m (b :: l)) = [] ++ [a]
      rw [if_pos ha, hnil]
      rfl
    · by_cases hbm : b.magnitude = m
      · simp only [filterByMagnitude, if_pos hbm]
        rw [filterByMagnitude_insert_of_eq ha hl]
        rfl
      · simp only [filterByMagnitude, if_neg hbm]
        exact filterByMagnitude_insert_of_eq ha hl

theorem filterByMagnitude_append (m : ℝ) :
    ∀ (l₁ l₂ : List SkyObject),
      filterByMagnitude m (l₁ ++ l₂) = filterByMagnitude m l₁ ++ filterByMagnitude m l₂
  | [], l₂ => rfl
  | a :: l₁, l₂ => by
    show (if a.magnitude = m then a :: filterByMagnitude m (l₁ ++ l₂)
        else filterByMagnitude m (l₁ ++ l₂)) =
      (if a.magnitude = m then a :: filterByMagnitude m l₁
        else filterByMagnitude m l₁) ++ filterByMagnitude m l₂
    split
    · rw [filterByMagnitude_append m l₁ l₂]
      rfl
    · exact filterByMagnitude_append m l₁ l₂

theorem foldl_insert_filter (m : ℝ) :
    ∀ (l acc : List SkyObject), acc.Pairwise magLE →
      filterByMagnitude m (l.foldl (fun acc a => insertByMagnitude a acc) acc) =
        filterByMagnitude m acc ++ filterByMagnitude m l
  | [], acc, _ => by simp [filterByMagnitude]
  | a :: l, acc, h => by
    show filterByMagnitude m (l.foldl _ (insertByMagnitude a acc)) = _
    rw [foldl_insert_filter m l (insertByMagnitude a acc) (pairwise_insertByMagnitude h)]
    by_cases ha : a.magnitude = m
    · rw [filterByMagnitude_insert_of_eq ha h]
      simp only [filterByMagnitude, if_pos ha]
      simp
    · rw [filterByMagnitude_insert_of_ne ha]
      simp only [filterByMagnitude, if_neg ha]

theorem sortByMagnitude_filter (m : ℝ) (l : List SkyObject) :
    filterByMagnitude m (sortByMagnitude l) = filterByMagnitude m l := by
  have h := foldl_insert_filter m l [] List.Pairwise.nil
  simpa [sortByMagnitude, filterByMagnitude] using h

/-- `angleDifference` from app.js.  The source repeatedly subtracts or
adds 360 while the difference is above 180 or below -180; on real inputs
that loop terminates with the value given here in closed form (subtract
the number of 360-steps needed to reach at most 180, respectively add the
number needed to reach at least -180). -/
def angleDifference (a b : ℝ) : ℝ :=
  let diff := a - b
  if 180 < diff then diff - 360 * (⌈(diff - 180) / 360⌉ : ℝ)
  else if diff < -180 then diff + 360 * (⌈(-180 - diff) / 360⌉ : ℝ)
  else diff

/-- `this.planets` from app.js and the sky-map variant. -/
def planetsList : List String := ["Mercury", "Venus", "Mars", "Jupiter", "Saturn"]

/-- One iteration of the star loop of `calculateVisibleObjects` in
app.js: computes the horizontal position, assigns it onto the star record
(`star.altitude = pos.altitude; star.azimuth = pos.azimuth`), and pushes
a star entry when the star is above the horizon and inside the field of
view. -/
def starStep (lat lon jd viewAz viewAlt fov : ℝ) (s : StarRecord) :
    StarRecord × Option SkyObject :=
  let pos := equatorialToHorizontal s.ra s.dec lat lon jd
  let s2 : StarRecord := { s with altitude := some pos.altitude, azimuth := some pos.azimuth }
  let o : Option SkyObject :=
    if 0 < pos.altitude ∧ |angleDifference pos.azimuth viewAz| < fov ∧
        |pos.altitude - viewAlt| < fov then
      some ⟨SkyType.star, s.name, s.magnitude, pos.altitude, pos.azimuth, none, none, none⟩
    else none
  (s2, o)

/-- The planet entries pushed by `calculateVisibleObjects` in app.js. -/
def planetObjectsInView (lat lon jd viewAz viewAlt fov : ℝ) : List SkyObject :=
  planetsList.filterMap fun planetName =>
    match getPlanetPosition planetName jd with
    | none => none
    | some PlanetLookupResult.inheritedObject => none
      -- a degenerate object would reach the transform with NaN
      -- coordinates, the NaN altitude fails the `> 0` test, and nothing
      -- is pushed; the five looped names are all own table keys anyway
    | some (PlanetLookupResult.position planet) =>
      let pos := equatorialToHorizontal planet.ra planet.dec lat lon jd
      if 0 < pos.altitude ∧ |angleDifference pos.azimuth viewAz| < fov ∧
          |pos.altitude - viewAlt| < fov then
        some ⟨SkyType.planet, planetName, planet.magnitude, pos.altitude, pos.azimuth,
          none, none, none⟩
      else none

/-- The Moon entry pushed by `calculateVisibleObjects` in app.js (fixed
magnitude -12.74). -/
def moonObjectsInView (lat lon jd viewAz viewAlt fov : ℝ) : List SkyObject :=
  let moon := getMoonPosition jd
  let pos := equatorialToHorizontal moon.ra moon.dec lat lon jd
  if 0 < pos.altitude ∧ |angleDifference pos.azimuth viewAz| < fov ∧
      |pos.altitude - viewAlt| < fov then
    [⟨SkyType.moon, "Moon", -12.74, pos.altitude, pos.azimuth, none,
      some (getMoonPhase jd), none⟩]
  else []

/-- The contents of `this.visibleObjects` immediately before the final
sort: stars in catalog order, then planets in `this.planets` order, then
the Moon. -/
def rawVisibleObjects (stars : List StarRecord)
    (lat lon alpha compassOffset beta fov jd : ℝ) : List SkyObject :=
  let viewAz := jsMod (alpha + compassOffset) 360
  let viewAlt := 90 - |beta|
  ((stars.map (starStep lat lon jd viewAz viewAlt fov)).filterMap Prod.snd) ++
    planetObjectsInView lat lon jd viewAz viewAlt fov ++
    moonObjectsInView lat lon jd viewAz viewAlt fov

/-- `calculateVisibleObjects` from app.js, as a state-passing function:
first component is the star-record list after the loop's assignments onto
each record, second component is the sorted `this.visibleObjects`. -/
def calculateVisibleObjects (stars : List StarRecord)
    (lat lon alpha compassOffset beta fov jd : ℝ) :
    List StarRecord × List SkyObject :=
  ((stars.map (starStep lat lon jd (jsMod (alpha + compassOffset) 360)
      (90 - |beta|) fov)).map Prod.fst,
    sortByMagnitude (rawVisibleObjects stars lat lon alpha compassOffset beta fov jd))

/-- The contents of `this.allObjects` in `calculateAllObjects`
(src/unnamed/part_000) before the sort: no field-of-view filter, star
entries carry spectral class and catalog index, star records are not
written to. -/
def rawAllObjects (stars : List StarRecord) (lat lon jd : ℝ) : List SkyObject :=
  (stars.filterMap fun s =>
    let pos := equatorialToHorizontal s.ra s.dec lat lon jd
    if 0 < pos.altitude then
      some ⟨SkyType.star, s.name, s.magnitude, pos.altitude, pos.azimuth,
        some s.spectralClass, none, some s.id⟩
    else none) ++
  (planetsList.filterMap fun planetName =>
    match getPlanetPosition planetName jd with
    | none => none
    | some PlanetLookupResult.inheritedObject => none
    | some (PlanetLookupResult.position planet) =>
      let pos := equatorialToHorizontal planet.ra planet.dec lat lon jd
      if 0 < pos.altitude then
        some ⟨SkyType.planet, planetName, planet.magnitude, pos.altitude, pos.azimuth,
          none, none, none⟩
      else none) ++
  (let moon := getMoonPosition jd
   let pos := equatorialToHorizontal moon.ra moon.dec lat lon jd
   if 0 < pos.altitude then
     [⟨SkyType.moon, "Moon", -12.74, pos.altitude, pos.azimuth, none,
       some (getMoonPhase jd), none⟩]
   else [])

/-- `calculateAllObjects` from src/unnamed/part_000. -/
def calculateAllObjects (stars : List StarRecord) (lat lon jd : ℝ) : List SkyObject :=
  sortByMagnitude (rawAllObjects stars lat lon jd)

theorem mem_rawVisibleObjects {stars : List StarRecord}
    {lat lon alpha compassOffset beta fov jd : ℝ} {x : SkyObject}
    (hx : x ∈ rawVisibleObjects stars lat lon alpha compassOffset beta fov jd) :
    0 < x.altitude ∧ (x.type = SkyType.moon → x.magnitude = -12.74) := by
  simp only [rawVisibleObjects, List.append_assoc, List.mem_append] at hx
  rcases hx with hx | hx | hx
  · rcases List.mem_filterMap.1 hx with ⟨p, hp, hsnd⟩
    rcases List.mem_map.1 hp with ⟨s, _, rfl⟩
    simp only [starStep] at hsnd
    split at hsnd
    · injection hsnd with h
      subst h
      exact ⟨(by assumption : _ ∧ _).1, fun ht => absurd ht (by simp)⟩
    · exact absurd hsnd (by simp)
  · rcases List.mem_filterMap.1 hx with ⟨planetName, _, heq⟩
    split at heq
    · exact absurd heq (by simp)
    · exact absurd heq (by simp)
    · try dsimp only at heq
      split at heq
      · injection heq with h
        subst h
        exact ⟨(by assumption : _ ∧ _).1, fun ht => absurd ht (by simp)⟩
      · exact absurd heq (by simp)
  · simp only [moonObjectsInView] at hx
    try dsimp only at hx
    split at hx
    · rcases List.mem_singleton.1 hx with rfl
      exact ⟨(by assumption : _ ∧ _).1, fun _ => rfl⟩
    · exact absurd hx (by simp)

theorem mem_rawAllObjects {stars : List StarRecord} {lat lon jd : ℝ} {x : SkyObject}
    (hx : x ∈ rawAllObjects stars lat lon jd) :
    0 < x.altitude ∧ (x.type = SkyType.moon → x.magnitude = -12.74) := by
  simp only [rawAllObjects, List.append_assoc, List.mem_append] at hx
  rcases hx with hx | hx | hx
  · rcases List.mem_filterMap.1 hx with ⟨s, _, heq⟩
    try dsimp only at heq
    split at heq
    · injection heq with h
      subst h
      exact ⟨by assumption, fun ht => absurd ht (by simp)⟩
    · exact absurd heq (by simp)
  · rcases List.mem_filterMap.1 hx with ⟨planetName, _, heq⟩
    split at heq
    · exact absurd heq (by simp)
    · exact absurd heq (by simp)
    · try dsimp only at heq
      split at heq
      · injection heq with h
        subst h
        exact ⟨by assumption, fun ht => absurd ht (by simp)⟩
      · exact absurd heq (by simp)
  · try dsimp only at hx
    split at hx
    · rcases List.mem_singleton.1 hx with rfl
      exact ⟨by assumption, fun _ => rfl⟩
    · exact absurd hx (by simp)

/-- C3: for every input, every object in the query results of
`calculateVisibleObjects` (app.js) and `calculateAllObjects`
(src/unnamed/part_000) has altitude strictly greater than 0: no star,
planet, or Moon entry at or below the horizon is ever returned. -/
theorem C3_only_above_horizon (stars : List StarRecord)
    (lat lon alpha compassOffset beta fov jd : ℝ) :
    ((calculateVisibleObjects stars lat lon alpha compassOffset beta fov jd).2.Forall
      fun o => 0 < o.altitude) ∧
    ((calculateAllObjects stars lat lon jd).Forall fun o => 0 < o.altitude) := by
  constructor
  · show (sortByMagnitude _).Forall _
    apply sortByMagnitude_forall
    rw [List.forall_iff_forall_mem]
    exact fun x hx => (mem_rawVisibleObjects hx).1
  · apply sortByMagnitude_forall
    rw [List.forall_iff_forall_mem]
    exact fun x hx => (mem_rawAllObjects hx).1

/-- C4: for every input, the query result of both `calculateVisibleObjects`
(app.js) and `calculateAllObjects` (src/unnamed/part_000) is sorted
non-decreasing by magnitude; it is a permutation of the generation-order
list (stars in catalog order, then planets, then the Moon) in which, for
every magnitude value, the subsequence of entries carrying that magnitude
is exactly the one of the generation-order list (the stable tie-break);
and every Moon entry carries the fixed magnitude -12.74. -/
theorem C4_sorted_by_magnitude (stars : List StarRecord)
    (lat lon alpha compassOffset beta fov jd : ℝ) :
    ((calculateVisibleObjects stars lat lon alpha compassOffset beta fov jd).2.Pairwise magLE ∧
      List.Perm (calculateVisibleObjects stars lat lon alpha compassOffset beta fov jd).2
        (rawVisibleObjects stars lat lon alpha compassOffset beta fov jd) ∧
      (∀ m : ℝ,
        filterByMagnitude m
            (calculateVisibleObjects stars lat lon alpha compassOffset beta fov jd).2 =
          filterByMagnitude m (rawVisibleObjects stars lat lon alpha compassOffset beta fov jd)) ∧
      ((calculateVisibleObjects stars lat lon alpha compassOffset beta fov jd).2.Forall
        fun o => o.type ≠ SkyType.moon ∨ o.magnitude = -12.74)) ∧
    ((calculateAllObjects stars lat lon jd).Pairwise magLE ∧
      List.Perm (calculateAllObjects stars lat lon jd) (rawAllObjects stars lat lon jd) ∧
      (∀ m : ℝ, filterByMagnitude m (calculateAllObjects stars lat lon jd) =
        filterByMagnitude m (rawAllObjects stars lat lon jd)) ∧
      ((calculateAllObjects stars lat lon jd).Forall
        fun o => o.type ≠ SkyType.moon ∨ o.magnitude = -12.74)) := by
  constructor
  · refine ⟨sortByMagnitude_pairwise _, sortByMagnitude_perm _,
      fun m => sortByMagnitude_filter m _, ?_⟩
    show (sortByMagnitude _).Forall _
    apply sortByMagnitude_forall
    rw [List.forall_iff_forall_mem]
    intro x hx
    by_cases h : x.type = SkyType.moon
    · exact Or.inr ((mem_rawVisibleObjects hx).2 h)
    · exact Or.inl h
  · refine ⟨sortByMagnitude_pairwise _, sortByMagnitude_perm _,
      fun m => sortByMagnitude_filter m _, ?_⟩
    apply sortByMagnitude_forall
    rw [List.forall_iff_forall_mem]
    intro x hx
    by_cases h : x.type = SkyType.moon
    · exact Or.inr ((mem_rawAllObjects hx).2 h)
    · exact Or.inl h

/-- The five catalog fields of a star record (the data loaded from
`STAR_CATALOG`, as opposed to the derived fields written by the app.js
query loop). -/
def catalogFields (s : StarRecord) : String × ℝ × ℝ × ℝ × String :=
  (s.name, s.ra, s.dec, s.magnitude, s.spectralClass)

/-- C7 counterexample: `calculateVisibleObjects` mutates the star
records.  Before the first query the first record of `getStars` has no
`altitude` property, afterwards it has one. -/
theorem C7_star_record_mutation_counterexample :
    (getStars.map StarRecord.altitude).head? = some none ∧
    ((calculateVisibleObjects getStars 0 0 0 0 0 60 2451545).1.map
        StarRecord.altitude).head? ≠ some none := by
  have hs : getStars.head? =
      some ⟨0, "Sirius", raHoursToDegrees 6.752, -16.716, -1.46, "A1V", none, none⟩ := rfl
  constructor
  · rw [List.head?_map, hs]
    rfl
  · simp only [calculateVisibleObjects]
    rw [List.head?_map, List.head?_map, List.head?_map, hs]
    simp [starStep]

/-- C7 amended: the app.js query writes only the derived
altitude/azimuth properties onto the star records; the five catalog
fields of every record are untouched, and the query is a pure,
idempotent function of its inputs: re-running it on the state it
produced returns the identical state and the identical result list. -/
theorem C7_no_catalog_field_mutation (stars : List StarRecord)
    (lat lon alpha compassOffset beta fov jd : ℝ) :
    ((calculateVisibleObjects stars lat lon alpha compassOffset beta fov jd).1.map
        catalogFields = stars.map catalogFields) ∧
    calculateVisibleObjects
        (calculateVisibleObjects stars lat lon alpha compassOffset beta fov jd).1
        lat lon alpha compassOffset beta fov jd =
      calculateVisibleObjects stars lat lon alpha compassOffset beta fov jd := by
  constructor
  · simp only [calculateVisibleObjects, List.map_map]
    exact List.map_congr_left fun s _ => rfl
  · have key : ((stars.map (starStep lat lon jd (jsMod (alpha + compassOffset) 360)
        (90 - |beta|) fov)).map Prod.fst).map (starStep lat lon jd
          (jsMod (alpha + compassOffset) 360) (90 - |beta|) fov) =
        stars.map (starStep lat lon jd (jsMod (alpha + compassOffset) 360)
          (90 - |beta|) fov) := by
      simp only [List.map_map]
      exact List.map_congr_left fun s _ => rfl
    simp only [calculateVisibleObjects, rawVisibleObjects]
    rw [key]
